import Mathlib

/-!
Shallow embedding of the `api_js_funcionario_cargo` repository (a Node.js HR
REST API) for checking its natural-language specification.

The embedding follows the JavaScript sources file by file:

* `JsValue`, `jsToNumber`, `jsLooseEq` model the slice of JavaScript value
  semantics the sources rely on (the `Number(...)` coercion used by the id
  setters, truthiness, and the loose `==` comparison).
* `Cargo` / `Funcionario` model the value-object classes
  `api/models/Cargo.js` and `api/model/Funcionario.js`; each JS setter
  becomes a function returning `Except JsError _` (a JS `throw` becomes
  `.error`).
* `Database`, `CargoDAO`, `FuncionarioDAO` model the MySQL store and the DAO
  classes `api/dao/CargoDAO.js` and `FuncionarioDAO` (an unnamed source
  file); the store is a pair of row lists with auto-increment counters.
* `CargoService`, `FuncionarioService` model the service classes.
* `MeuTokenJWT` (api/http/MeuTokenJWT.js, not among the sources) is modelled
  from the spec; `JwtMiddleware` follows its source file.
* `Server.errorHandlerStatus` models the top-level error responder of
  `Server.js`.
-/

namespace HR

/-- A JavaScript value, restricted to the primitive shapes the embedded code
manipulates.  JS numbers are modelled as `Rat` (the sources only ever use
finite decimal values; `NaN` is represented as `none` at coercion sites). -/
inductive JsValue where
  | undefined
  | null
  | bool (b : Bool)
  | num (q : Rat)
  | str (s : String)
deriving DecidableEq, Repr

/-- JS `String.prototype.trim()`: strip leading and trailing whitespace
(modelled over the ASCII whitespace characters `Char.isWhitespace` knows;
the sources never feed exotic Unicode spaces through `trim`). -/
def jsTrim (s : String) : String :=
  ⟨((s.toList.dropWhile Char.isWhitespace).reverse.dropWhile Char.isWhitespace).reverse⟩

/-- Digits of a decimal literal to a natural number. -/
def digitsToNat (ds : List Char) : Nat :=
  ds.foldl (fun a c => 10 * a + (c.toNat - '0'.toNat)) 0

/-- `Number(s)` on the body after an optional sign: digits, optionally with a
single decimal point (`"5"`, `"5."`, `".5"`).  Exotic forms (hex, exponent)
are outside the model; they never occur in this API's inputs of interest.
`none` is `NaN`. -/
def parseUnsigned (cs : List Char) : Option Rat :=
  let intPart := cs.takeWhile (· ≠ '.')
  let rest := cs.dropWhile (· ≠ '.')
  match rest with
  | [] =>
    if intPart ≠ [] && intPart.all Char.isDigit then some (digitsToNat intPart : Rat) else none
  | _ :: fracPart =>
    if fracPart.contains '.' then none
    else if intPart = [] && fracPart = [] then none
    else if intPart.all Char.isDigit && fracPart.all Char.isDigit then
      some ((digitsToNat intPart : Rat) + (digitsToNat fracPart : Rat) / ((10 : Rat) ^ fracPart.length))
    else none

/-- JS `Number(stringValue)`: trimmed empty string is `0`, otherwise an
optionally signed decimal literal; anything else is `NaN` (`none`). -/
def jsParseNumber (s : String) : Option Rat :=
  let t := jsTrim s
  if t = "" then some 0
  else
    match t.toList with
    | '-' :: rest => (parseUnsigned rest).map (fun q => -q)
    | '+' :: rest => parseUnsigned rest
    | cs => parseUnsigned cs

/-- JS `Number(value)` coercion; `none` is `NaN`. -/
def jsToNumber : JsValue → Option Rat
  | .undefined => none
  | .null => some 0
  | .bool b => some (if b then 1 else 0)
  | .num q => some q
  | .str s => jsParseNumber s

/-- JS loose equality `==` on the modelled values: `undefined`/`null` are
equal only to each other; two strings compare as strings; any other pair is
compared after numeric coercion (`NaN` equals nothing). -/
def jsLooseEq : JsValue → JsValue → Bool
  | .undefined, .undefined => true
  | .undefined, .null => true
  | .null, .undefined => true
  | .null, .null => true
  | .undefined, _ => false
  | _, .undefined => false
  | .null, _ => false
  | _, .null => false
  | .str a, .str b => a == b
  | a, b =>
    match jsToNumber a, jsToNumber b with
    | some x, some y => x == y
    | _, _ => false

/-- Truthiness of an optional string field of a model object: JS
`if (obj.senha)` — `undefined` and `""` are falsy. -/
def jsTruthyStr : Option String → Bool
  | some s => s ≠ ""
  | none => false

/-- An error thrown by the embedded code.  `api/utils/ErrorResponse.js`
extends `Error` with an HTTP code and a detail object (modelled as the detail
message string); every other `throw new Error(...)` is a `plainError`. -/
inductive JsError where
  | plainError (message : String)
  | errorResponse (httpCode : Nat) (message : String) (detail : String)
deriving DecidableEq, Repr

/-- `Server.js` `setupErrorMiddleware`: an `error instanceof ErrorResponse`
is answered with its own `httpCode`; any other error falls through to the
generic 500 branch. -/
def Server.errorHandlerStatus : JsError → Nat
  | .errorResponse code _ _ => code
  | .plainError _ => 500

/-- Is the error a plain `Error` (not an `ErrorResponse`)? -/
def JsError.isPlain : JsError → Bool
  | .plainError _ => true
  | .errorResponse _ _ _ => false

/-! ## Value object `Cargo` (api/models/Cargo.js) -/

/-- The `Cargo` class: private fields start `undefined` (`none`) and are
assigned only through the validating setters below. -/
structure Cargo where
  idCargo : Option Int := none
  nomeCargo : Option String := none
deriving DecidableEq, Repr

/-- The validation chain of `set idCargo(value)`: `Number(value)` must be
an integer `> 0`.  `Number.isInteger(NaN)` is `false`, so a `NaN` coercion
takes the first error branch, as in the source. -/
def validateIdCargo (value : JsValue) : Except JsError Int :=
  match jsToNumber value with
  | none => .error (.plainError "idCargo deve ser um número inteiro.")
  | some parsed =>
    if parsed.den ≠ 1 then .error (.plainError "idCargo deve ser um número inteiro.")
    else if parsed.num ≤ 0 then .error (.plainError "idCargo deve ser maior que zero.")
    else .ok parsed.num

/-- `set idCargo(value)`: validate, then assign the parsed value. -/
def Cargo.setIdCargo (c : Cargo) (value : JsValue) : Except JsError Cargo :=
  (validateIdCargo value).map fun parsed => { c with idCargo := some parsed }

/-- The validation chain of `set nomeCargo(value)`: a string whose trim has
length in `[3, 64]`; the trimmed value is what gets stored. -/
def validateNomeCargo (value : JsValue) : Except JsError String :=
  match value with
  | .str v =>
    let nome := jsTrim v
    if nome.length < 3 then .error (.plainError "nomeCargo deve ter pelo menos 3 caracteres.")
    else if nome.length > 64 then .error (.plainError "nomeCargo deve ter no máximo 64 caracteres.")
    else .ok nome
  | _ => .error (.plainError "nomeCargo deve ser uma string.")

/-- `set nomeCargo(value)`: validate, then assign the trimmed value. -/
def Cargo.setNomeCargo (c : Cargo) (value : JsValue) : Except JsError Cargo :=
  (validateNomeCargo value).map fun nome => { c with nomeCargo := some nome }

/-! ## Value object `Funcionario` (api/model/Funcionario.js) -/

/-- The `Funcionario` class: private fields start `undefined` (`none`). -/
structure Funcionario where
  idFuncionario : Option Int := none
  cargo : Option Cargo := none
  nomeFuncionario : Option String := none
  email : Option String := none
  senha : Option String := none
  recebeValeTransporte : Option Int := none
deriving DecidableEq, Repr

/-- The validation chain of `set idFuncionario(valor)`: `Number(valor)`
must be an integer `> 0`. -/
def validateIdFuncionario (valor : JsValue) : Except JsError Int :=
  match jsToNumber valor with
  | none => .error (.plainError "idFuncionario deve ser um número inteiro.")
  | some parsed =>
    if parsed.den ≠ 1 then .error (.plainError "idFuncionario deve ser um número inteiro.")
    else if parsed.num ≤ 0 then .error (.plainError "idFuncionario deve ser um número inteiro positivo.")
    else .ok parsed.num

/-- `set idFuncionario(valor)`: validate, then assign the parsed value. -/
def Funcionario.setIdFuncionario (f : Funcionario) (valor : JsValue) : Except JsError Funcionario :=
  (validateIdFuncionario valor).map fun parsed => { f with idFuncionario := some parsed }

/-- `set cargo(value)`: the source checks `value instanceof Cargo`; in the
typed embedding the argument is already a `Cargo`, so the check cannot fail
and the assignment always succeeds. -/
def Funcionario.setCargo (f : Funcionario) (value : Cargo) : Except JsError Funcionario :=
  .ok { f with cargo := some value }

/-- The validation chain of `set nomeFuncionario(value)`: a string whose
trim has length `≥ 3`; the trimmed value is stored. -/
def validateNomeFuncionario (value : JsValue) : Except JsError String :=
  match value with
  | .str v =>
    let nome := jsTrim v
    if nome.length < 3 then .error (.plainError "nomeFuncionario deve ter pelo menos 3 caracteres.")
    else .ok nome
  | _ => .error (.plainError "nomeFuncionario deve ser uma string.")

/-- `set nomeFuncionario(value)`: validate, then assign. -/
def Funcionario.setNomeFuncionario (f : Funcionario) (value : JsValue) : Except JsError Funcionario :=
  (validateNomeFuncionario value).map fun nome => { f with nomeFuncionario := some nome }

/-- A character admissible inside one segment of the e-mail regex
`[^\s@]+`: not whitespace and not `@`. -/
def isEmailSegChar (c : Char) : Bool := !c.isWhitespace && c != '@'

/-- A nonempty run of `[^\s@]` characters. -/
def validSeg (l : List Char) : Bool := !l.isEmpty && l.all isEmailSegChar

/-- Denotation of the regex `^[^\s@]+@[^\s@]+\.[^\s@]+$`: the string splits
as `A ++ "@" ++ B ++ "." ++ C` with `A`, `B`, `C` nonempty and free of
whitespace and `@` (the dot separating `B` and `C` may be any of the dots
after the `@`). -/
def emailRegexTest (s : String) : Bool :=
  let cs := s.toList
  (List.range cs.length).any fun i =>
    cs.getD i ' ' == '@' && validSeg (cs.take i) &&
      (let rest := cs.drop (i + 1)
       (List.range rest.length).any fun j =>
         rest.getD j ' ' == '.' && validSeg (rest.take j) && validSeg (rest.drop (j + 1)))

/-- The validation chain of `set email(value)`: a string, trimmed,
nonempty, matching the e-mail regex; the trimmed value is stored. -/
def validateEmail (value : JsValue) : Except JsError String :=
  match value with
  | .str v =>
    let emailTrimmed := jsTrim v
    if emailTrimmed = "" then .error (.plainError "email não pode ser vazio.")
    else if !emailRegexTest emailTrimmed then .error (.plainError "email em formato inválido.")
    else .ok emailTrimmed
  | _ => .error (.plainError "email deve ser uma string.")

/-- `set email(value)`: validate, then assign. -/
def Funcionario.setEmail (f : Funcionario) (value : JsValue) : Except JsError Funcionario :=
  (validateEmail value).map fun email => { f with email := some email }

/-- The special characters of the password regex `[!@#$%^&*(),.?":{}|<>]`. -/
def specialChars : List Char :=
  ['!', '@', '#', '$', '%', '^', '&', '*', '(', ')', ',', '.', '?', '"', ':', '\x7b', '\x7d', '|', '<', '>']

/-- The validation chain of `set senha(value)`: a string whose trim is
nonempty, has length `≥ 6`, and contains an uppercase letter `[A-Z]`, a
digit `[0-9]`, and a special character, checked in that order (fail-fast);
the trimmed value is stored. -/
def validateSenha (value : JsValue) : Except JsError String :=
  match value with
  | .str v =>
    let senhaTrimmed := jsTrim v
    if senhaTrimmed = "" then .error (.plainError "senha não pode ser vazia.")
    else if senhaTrimmed.length < 6 then .error (.plainError "senha deve ter pelo menos 6 caracteres.")
    else if !senhaTrimmed.toList.any (fun c => 'A' ≤ c && c ≤ 'Z') then
      .error (.plainError "senha deve conter pelo menos uma letra maiúscula.")
    else if !senhaTrimmed.toList.any (fun c => '0' ≤ c && c ≤ '9') then
      .error (.plainError "senha deve conter pelo menos um número.")
    else if !senhaTrimmed.toList.any (fun c => specialChars.contains c) then
      .error (.plainError "senha deve conter pelo menos um caractere especial.")
    else .ok senhaTrimmed
  | _ => .error (.plainError "senha deve ser uma string.")

/-- `set senha(value)`: validate, then assign. -/
def Funcionario.setSenha (f : Funcionario) (value : JsValue) : Except JsError Funcionario :=
  (validateSenha value).map fun senha => { f with senha := some senha }

/-- The validation chain of `set recebeValeTransporte(value)`:
`[0, 1].includes(value)` uses SameValueZero equality, so only the numbers
`0` and `1` are accepted. -/
def validateRecebeValeTransporte (value : JsValue) : Except JsError Int :=
  if value = .num 0 then .ok 0
  else if value = .num 1 then .ok 1
  else .error (.plainError "recebeValeTransporte deve ser 0 ou 1.")

/-- `set recebeValeTransporte(value)`: validate, then assign. -/
def Funcionario.setRecebeValeTransporte (f : Funcionario) (value : JsValue) : Except JsError Funcionario :=
  (validateRecebeValeTransporte value).map fun rvt => { f with recebeValeTransporte := some rvt }

/-! ## The relational store (docs/Banco.sql) -/

/-- A row of the `cargo` table. -/
structure CargoRow where
  idCargo : Int
  nomeCargo : String
deriving DecidableEq, Repr

/-- A row of the `funcionario` table (`cargoId` is the column
`Cargo_idCargo`). -/
structure FuncionarioRow where
  idFuncionario : Int
  nomeFuncionario : String
  email : String
  senha : String
  recebeValeTransporte : Int
  cargoId : Int
deriving DecidableEq, Repr

/-- The MySQL database `gestao_rh`: the two tables plus their
auto-increment counters. -/
structure Database where
  cargos : List CargoRow
  funcionarios : List FuncionarioRow
  nextCargoId : Int := 1
  nextFuncionarioId : Int := 1
deriving DecidableEq, Repr

/-- A value bound into a parameterized query. -/
inductive SqlValue where
  | int (i : Int)
  | str (s : String)
deriving DecidableEq, Repr

/-- The observable shape of a `findByField` query once built: the column
name interpolated into the SQL text and the single bound parameter. -/
structure SqlQuery where
  interpolatedField : String
  param : SqlValue
deriving DecidableEq, Repr

/-- Reading the column `field` of a `cargo` row (the semantics of
`WHERE ${field} = ?` for a whitelisted field). -/
def CargoRow.getField (r : CargoRow) : String → Option SqlValue
  | "idCargo" => some (.int r.idCargo)
  | "nomeCargo" => some (.str r.nomeCargo)
  | _ => none

/-- Reading the column `field` of a `funcionario` row. -/
def FuncionarioRow.getField (r : FuncionarioRow) : String → Option SqlValue
  | "idFuncionario" => some (.int r.idFuncionario)
  | "nomeFuncionario" => some (.str r.nomeFuncionario)
  | "email" => some (.str r.email)
  | "senha" => some (.str r.senha)
  | "recebeValeTransporte" => some (.int r.recebeValeTransporte)
  | "Cargo_idCargo" => some (.int r.cargoId)
  | _ => none

/-! ## CargoDAO (api/dao/CargoDAO.js) -/

/-- The `allowedFields` whitelist of `CargoDAO.findByField`. -/
def cargoAllowedFields : List String := ["idCargo", "nomeCargo"]

/-- `CargoDAO.findByField(field, value)`: rejects a non-whitelisted field
before any SQL is built; otherwise runs
`SELECT * FROM cargo WHERE ${field} = ?` with `value` bound.  The built
query is returned alongside the rows so that theorems can speak about what
was interpolated versus what was bound. -/
def CargoDAO.findByField (db : Database) (field : String) (value : SqlValue) :
    Except JsError (SqlQuery × List CargoRow) :=
  if !cargoAllowedFields.contains field then
    .error (.plainError ("Campo inválido para busca: " ++ field))
  else
    .ok (⟨field, value⟩, db.cargos.filter (fun r => r.getField field == some value))

/-- `CargoDAO.create`: `INSERT INTO cargo (nomeCargo) VALUES (?)`; the store
assigns the auto-increment id.  An unset name would reach the driver as
`undefined` and be rejected before the insert. -/
def CargoDAO.create (db : Database) (objCargoModel : Cargo) : Except JsError (Database × Int) :=
  match objCargoModel.nomeCargo with
  | some nome =>
    let newId := db.nextCargoId
    .ok ({ db with cargos := db.cargos ++ [⟨newId, nome⟩], nextCargoId := newId + 1 }, newId)
  | none => .error (.plainError "Bind parameters must not contain undefined.")

/-! ## bcrypt (external collaborator) -/

/-- Modelled from the spec: the bcrypt library is an external collaborator,
"a black-box one-way hash with verify function" (`hash(plaintext)` /
`compare(plaintext, digest)`).  The model tags the plaintext with the
`$2b$12$` prefix the sources' cost-12 hashes carry; what the theorems use is
only that `bcryptHash` is deterministic, that `bcryptCompare p d` holds
exactly when `d = bcryptHash p`, and that a digest is never the plaintext. -/
def bcryptHash (plaintext : String) : String := "$2b$12$" ++ plaintext

/-- Modelled from the spec: `bcrypt.compare(plaintext, digest)`. -/
def bcryptCompare (plaintext digest : String) : Bool := bcryptHash plaintext == digest

/-! ## FuncionarioDAO (unnamed source file) -/

/-- The `allowedFields` whitelist of `FuncionarioDAO.findByField`. -/
def funcionarioAllowedFields : List String :=
  ["idFuncionario", "nomeFuncionario", "email", "senha", "recebeValeTransporte", "Cargo_idCargo"]

/-- `FuncionarioDAO.findByField(field, value)`: same whitelist-then-query
shape as the cargo DAO, over the `funcionario` table. -/
def FuncionarioDAO.findByField (db : Database) (field : String) (value : SqlValue) :
    Except JsError (SqlQuery × List FuncionarioRow) :=
  if !funcionarioAllowedFields.contains field then
    .error (.plainError "Campo inválido para busca")
  else
    .ok (⟨field, value⟩, db.funcionarios.filter (fun r => r.getField field == some value))

/-- The error MySQL raises when an INSERT or UPDATE violates the
`fk_Funcionario_Cargo` foreign key declared in docs/Banco.sql; the driver
surfaces it as a thrown (non-`ErrorResponse`) error. -/
def fkViolationMsg : String :=
  "Cannot add or update a child row: a foreign key constraint fails (fk_Funcionario_Cargo)"

/-- `FuncionarioDAO.create`: hashes the password
(`objFuncionarioModel.senha = await bcrypt.hash(objFuncionarioModel.senha, 12)`)
and runs the INSERT.  The store enforces `fk_Funcionario_Cargo`
(docs/Banco.sql, InnoDB): if `Cargo_idCargo` matches no `cargo` row the
INSERT is rejected with a foreign-key error and nothing is written;
otherwise the row is inserted and the auto-increment id returned.  A model
object with a missing field would reach the driver as `undefined` and be
rejected. -/
def FuncionarioDAO.create (db : Database) (objFuncionarioModel : Funcionario) :
    Except JsError (Database × Int) :=
  match objFuncionarioModel.nomeFuncionario, objFuncionarioModel.email,
      objFuncionarioModel.senha, objFuncionarioModel.recebeValeTransporte,
      objFuncionarioModel.cargo.bind Cargo.idCargo with
  | some nome, some email, some senha, some rvt, some cid =>
    if db.cargos.any (fun cr => cr.idCargo == cid) then
      let senhaHash := bcryptHash senha
      let newId := db.nextFuncionarioId
      .ok ({ db with
              funcionarios := db.funcionarios ++ [⟨newId, nome, email, senhaHash, rvt, cid⟩],
              nextFuncionarioId := newId + 1 }, newId)
    else
      .error (.plainError fkViolationMsg)
  | _, _, _, _, _ => .error (.plainError "Bind parameters must not contain undefined.")

/-- `FuncionarioDAO.update`: if `objFuncionarioModel.senha` is truthy the
`UPDATE` includes `senha = ?` bound to the bcrypt hash of the supplied
plaintext, otherwise the `senha` column is left out of the statement; the
other four columns are always set.  `affectedRows > 0` becomes "some row
matched the id". -/
def FuncionarioDAO.update (db : Database) (objFuncionarioModel : Funcionario) :
    Except JsError (Database × Bool) :=
  match objFuncionarioModel.idFuncionario, objFuncionarioModel.nomeFuncionario,
      objFuncionarioModel.email, objFuncionarioModel.recebeValeTransporte,
      objFuncionarioModel.cargo.bind Cargo.idCargo with
  | some fid, some nome, some email, some rvt, some cid =>
    let base : FuncionarioRow → FuncionarioRow := fun r =>
      { r with nomeFuncionario := nome, email := email, recebeValeTransporte := rvt, cargoId := cid }
    let apply : FuncionarioRow → FuncionarioRow :=
      match objFuncionarioModel.senha with
      | some s => if s ≠ "" then (fun r => { base r with senha := bcryptHash s }) else base
      | none => base
    .ok ({ db with
            funcionarios := db.funcionarios.map (fun r => if r.idFuncionario = fid then apply r else r) },
         db.funcionarios.any (fun r => r.idFuncionario = fid))
  | _, _, _, _, _ => .error (.plainError "Bind parameters must not contain undefined.")

/-- The inner join `funcionario JOIN cargo ON cargo.idCargo =
funcionario.Cargo_idCargo` used by `FuncionarioDAO.login`. -/
def Database.funcionarioJoinCargo (db : Database) : List (FuncionarioRow × CargoRow) :=
  db.funcionarios.flatMap fun fr =>
    (db.cargos.filter fun cr => cr.idCargo = fr.cargoId).map fun cr => (fr, cr)

/-- `FuncionarioDAO.login`: selects the join rows with the given email; if
the result is not exactly one row, returns `null`; if `bcrypt.compare` of
the supplied password against the stored digest fails, returns `null`;
otherwise rebuilds a `Funcionario` (without password) carrying the joined
`Cargo`. -/
def FuncionarioDAO.login (db : Database) (objFuncionarioModel : Funcionario) :
    Except JsError (Option Funcionario) :=
  match objFuncionarioModel.email, objFuncionarioModel.senha with
  | some email, some senha =>
    let resultado := db.funcionarioJoinCargo.filter fun p => p.1.email = email
    match resultado with
    | [(fr, cr)] =>
      if !bcryptCompare senha fr.senha then .ok none
      else .ok (some
        { idFuncionario := some fr.idFuncionario,
          cargo := some { idCargo := some cr.idCargo, nomeCargo := some cr.nomeCargo },
          nomeFuncionario := some fr.nomeFuncionario,
          email := some fr.email,
          senha := none,
          recebeValeTransporte := some fr.recebeValeTransporte })
    | _ => .ok none
  | _, _ => .error (.plainError "Bind parameters must not contain undefined.")

/-! ## Token service `MeuTokenJWT` and `JwtMiddleware` -/

/-- The claim set carried by a token.  The login path issues
`{email, role, name, idFuncionario}`; the middleware re-issue carries only
`{email, role, name}` (so `idFuncionario` defaults to `none` there). -/
structure Claims where
  email : Option String := none
  role : Option String := none
  name : Option String := none
  idFuncionario : Option Int := none
deriving DecidableEq, Repr

/-- A token string, viewed abstractly: either a well-formed signed token
(claims, signing secret, expiry instant) or any other string. -/
inductive TokenString where
  | signed (claims : Claims) (secret : String) (exp : Nat)
  | opaqueString (raw : String)
deriving DecidableEq, Repr

/-- The raw `Authorization` header of a request. -/
inductive AuthHeader where
  | absent
  | bearer (token : TokenString)
  | malformedHeader (raw : String)
deriving DecidableEq, Repr

/-- The server-held signing secret (its value is irrelevant; only equality
with itself matters). -/
def serverSecret : String := "segredo-do-servidor"

/-- The fixed token lifetime, in seconds. -/
def tokenTtlSeconds : Nat := 3600

/-- Modelled from the spec: `MeuTokenJWT.gerarToken(claims)`
(api/http/MeuTokenJWT.js is not among the sources).  "issue(claims):
produces a signed token string with a fixed expiration window using a
server-held secret." -/
def MeuTokenJWT.gerarToken (claims : Claims) (now : Nat) : TokenString :=
  .signed claims serverSecret (now + tokenTtlSeconds)

/-- Modelled from the spec: `MeuTokenJWT.validarToken(header)`.  "returns a
boolean validity result; on success, decoded claims become available ...
Fails when: header absent, malformed, signature mismatch, or token expired.
Does not throw on malformed input."  `some claims` is the `true` result with
the decoded payload available; `none` is the `false` result. -/
def MeuTokenJWT.validarToken (auth : AuthHeader) (now : Nat) : Option Claims :=
  match auth with
  | .bearer (.signed claims secret exp) =>
    if secret = serverSecret && now < exp then some claims else none
  | _ => none

/-- What the JWT middleware did to a request: the HTTP status it answered
with (if any), whether it invoked `next()`, and the request's
`authorization` header afterwards. -/
structure MiddlewareOutcome where
  responseStatus : Option Nat
  calledNext : Bool
  authorizationAfter : AuthHeader
deriving DecidableEq, Repr

/-- `JwtMiddleware.validateToken` (unnamed source file): validates the
`authorization` header; on success builds `{email, role, name}` from the
decoded payload, writes a freshly generated token back into
`request.headers.authorization`, and calls `next()`; otherwise answers 401
with `{status: false, msg: "token inválido"}` and never calls `next()`. -/
def JwtMiddleware.validateToken (auth : AuthHeader) (now : Nat) : MiddlewareOutcome :=
  match MeuTokenJWT.validarToken auth now with
  | some payload =>
    let obj : Claims := { email := payload.email, role := payload.role, name := payload.name }
    { responseStatus := none, calledNext := true,
      authorizationAfter := .bearer (MeuTokenJWT.gerarToken obj now) }
  | none =>
    { responseStatus := some 401, calledNext := false, authorizationAfter := auth }

/-! ## CargoService (api/service/CargoService.js) -/

/-- `CargoService.createCargo(cargoJson)`: runs the `nomeCargo` domain
setter, awaits `findByField("nomeCargo", ...)`, throws the 400 conflict
`ErrorResponse` if any row matches, otherwise delegates to
`CargoDAO.create` and returns the new id. -/
def CargoService.createCargo (db : Database) (nomeCargoJson : JsValue) :
    Except JsError (Database × Int) := do
  let cargo ← Cargo.setNomeCargo {} nomeCargoJson
  match cargo.nomeCargo with
  | some nome =>
    let found ← CargoDAO.findByField db "nomeCargo" (.str nome)
    if found.2.length > 0 then
      .error (.errorResponse 400 "Cargo já existe" ("O cargo " ++ nome ++ " já existe"))
    else
      CargoDAO.create db cargo
  | none =>
    -- after a successful setter the field is always set; this branch is dead
    .error (.plainError "Bind parameters must not contain undefined.")

/-! ## FuncionarioService (api/services/FuncionarioService.js) -/

/-- The JSON body `jsonFuncionario` handed to the funcionario service; a
field the client omitted is `undefined`.  `cargoIdCargo` stands for
`jsonFuncionario.cargo.idCargo`. -/
structure FuncionarioJson where
  nomeFuncionario : JsValue := .undefined
  email : JsValue := .undefined
  senha : JsValue := .undefined
  recebeValeTransporte : JsValue := .undefined
  cargoIdCargo : JsValue := .undefined
deriving DecidableEq, Repr

/-- In `createFuncionario` the role-existence lookup
`this.#cargoDAO.findByField("idCargo", ...)` is called WITHOUT `await`
(FuncionarioService.js line 67), so `cargoExiste` holds a pending Promise,
not a row array; reading `.length` of a Promise yields `undefined`. -/
def pendingPromiseLength : JsValue := .undefined

/-- `FuncionarioService.createFuncionario(jsonFuncionario)`: domain setters
for the cargo id and every funcionario field; then the (broken, un-awaited)
role-existence check `cargoExiste.length == 0`; then the awaited email
uniqueness check; then `FuncionarioDAO.create` and assignment of the new id
through the `idFuncionario` setter. -/
def FuncionarioService.createFuncionario (db : Database) (jsonFuncionario : FuncionarioJson) :
    Except JsError (Database × Funcionario) := do
  let objetoCargo ← Cargo.setIdCargo {} jsonFuncionario.cargoIdCargo
  let objFuncionario : Funcionario := {}
  let objFuncionario ← objFuncionario.setNomeFuncionario jsonFuncionario.nomeFuncionario
  let objFuncionario ← objFuncionario.setEmail jsonFuncionario.email
  let objFuncionario ← objFuncionario.setSenha jsonFuncionario.senha
  let objFuncionario ← objFuncionario.setRecebeValeTransporte jsonFuncionario.recebeValeTransporte
  let objFuncionario ← objFuncionario.setCargo objetoCargo
  -- `const cargoExiste = this.#cargoDAO.findByField(...)`  — no await;
  -- `cargoExiste.length` is `undefined`, and `undefined == 0` is false,
  -- so this branch can never be taken.
  if jsLooseEq pendingPromiseLength (.num 0) then
    .error (.errorResponse 400 "O cargo informado não existe"
      ("O email " ++ (objFuncionario.email.getD "") ++ " já está cadastrado"))
  else
    match objFuncionario.email with
    | some email => do
      let found ← FuncionarioDAO.findByField db "email" (.str email)
      if found.2.length > 0 then
        .error (.errorResponse 400 "´Já existe um Funcionário com o email fornecido"
          ("O email " ++ email ++ " já está cadastrado"))
      else do
        let created ← FuncionarioDAO.create db objFuncionario
        let objFuncionario ← objFuncionario.setIdFuncionario (.num (created.2 : Int))
        .ok (created.1, objFuncionario)
    | none =>
      -- after a successful email setter the field is always set; dead branch
      .error (.plainError "Bind parameters must not contain undefined.")

/-- The user view and token returned on a successful login. -/
structure LoginResult where
  user : Claims
  token : TokenString
deriving DecidableEq, Repr

/-- `FuncionarioService.loginFuncionario(jsonFuncionario)`: email and senha
domain setters, `FuncionarioDAO.login`, a single 401 `ErrorResponse` when
the DAO returns `null` (for a missing record and a wrong password alike),
otherwise the user view `{email, role, name, idFuncionario}` and a freshly
generated token. -/
def FuncionarioService.loginFuncionario (db : Database) (jsonEmail jsonSenha : JsValue)
    (now : Nat) : Except JsError LoginResult := do
  let objetoFuncionario : Funcionario := {}
  let objetoFuncionario ← objetoFuncionario.setEmail jsonEmail
  let objetoFuncionario ← objetoFuncionario.setSenha jsonSenha
  let encontrado ← FuncionarioDAO.login db objetoFuncionario
  match encontrado with
  | none =>
    .error (.errorResponse 401 "Usuário ou senha inválidos" "Não foi possível realizar autenticação")
  | some enc =>
    let user : Claims :=
      { email := enc.email,
        role := enc.cargo.bind Cargo.nomeCargo,
        name := enc.nomeFuncionario,
        idFuncionario := enc.idFuncionario }
    .ok { user := user, token := MeuTokenJWT.gerarToken user now }

/-- `FuncionarioService.updateFuncionario(idFuncionario, requestBody)`:
runs the cargo-id setter and then every funcionario setter on the payload
fields (all of them, unconditionally), and hands the built object to
`FuncionarioDAO.update`. -/
def FuncionarioService.updateFuncionario (db : Database) (idFuncionario : JsValue)
    (jsonFuncionario : FuncionarioJson) : Except JsError (Database × Bool) := do
  let objCargo ← Cargo.setIdCargo {} jsonFuncionario.cargoIdCargo
  let objFuncionario : Funcionario := {}
  let objFuncionario ← objFuncionario.setIdFuncionario idFuncionario
  let objFuncionario ← objFuncionario.setNomeFuncionario jsonFuncionario.nomeFuncionario
  let objFuncionario ← objFuncionario.setEmail jsonFuncionario.email
  let objFuncionario ← objFuncionario.setSenha jsonFuncionario.senha
  let objFuncionario ← objFuncionario.setRecebeValeTransporte jsonFuncionario.recebeValeTransporte
  let objFuncionario ← objFuncionario.setCargo objCargo
  FuncionarioDAO.update db objFuncionario

/-! ## Helper lemmas about the embedding -/

/-- Whether a computation, if it failed, failed with a plain `Error`. -/
def errIsPlain {α : Type} : Except JsError α → Bool
  | .error e => e.isPlain
  | .ok _ => true

lemma validateIdCargo_errIsPlain (v : JsValue) : errIsPlain (validateIdCargo v) = true := by
  unfold validateIdCargo
  cases jsToNumber v
  · rfl
  · dsimp only; split_ifs <;> rfl

lemma validateNomeCargo_errIsPlain (v : JsValue) : errIsPlain (validateNomeCargo v) = true := by
  unfold validateNomeCargo
  cases v <;> first | rfl | (dsimp only; split_ifs <;> rfl)

lemma validateIdFuncionario_errIsPlain (v : JsValue) : errIsPlain (validateIdFuncionario v) = true := by
  unfold validateIdFuncionario
  cases jsToNumber v
  · rfl
  · dsimp only; split_ifs <;> rfl

lemma validateNomeFuncionario_errIsPlain (v : JsValue) :
    errIsPlain (validateNomeFuncionario v) = true := by
  unfold validateNomeFuncionario
  cases v <;> first | rfl | (dsimp only; split_ifs <;> rfl)

lemma validateEmail_errIsPlain (v : JsValue) : errIsPlain (validateEmail v) = true := by
  unfold validateEmail
  cases v <;> first | rfl | (dsimp only; split_ifs <;> rfl)

lemma validateSenha_errIsPlain (v : JsValue) : errIsPlain (validateSenha v) = true := by
  unfold validateSenha
  cases v <;> first | rfl | (dsimp only; split_ifs <;> rfl)

lemma validateRecebeValeTransporte_errIsPlain (v : JsValue) :
    errIsPlain (validateRecebeValeTransporte v) = true := by
  unfold validateRecebeValeTransporte
  split_ifs <;> rfl

lemma errIsPlain_map {α β : Type} (g : α → β) (x : Except JsError α)
    (hx : errIsPlain x = true) : errIsPlain (x.map g) = true := by
  cases x <;> simp_all [Except.map, errIsPlain]

lemma errIsPlain_error {α : Type} (x : Except JsError α) (e : JsError)
    (hx : errIsPlain x = true) (h : x = .error e) : e.isPlain = true := by
  subst h; exact hx

lemma plain_exists (e : JsError) (h : e.isPlain = true) : ∃ m, e = .plainError m := by
  cases e <;> simp_all [JsError.isPlain]

lemma jsBind_ok {α β : Type} (a : α) (f : α → Except JsError β) :
    (Except.ok a : Except JsError α) >>= f = f a := rfl

lemma jsBind_error {α β : Type} (e : JsError) (f : α → Except JsError β) :
    (Except.error e : Except JsError α) >>= f = .error e := rfl

lemma jsMapBind {α β γ : Type} (x : Except JsError α) (g : α → β) (k : β → Except JsError γ) :
    (x.map g >>= k) = x >>= fun a => k (g a) := by cases x <;> rfl

lemma jsBind_congr {α β : Type} (x : Except JsError α) (f g : α → Except JsError β)
    (h : ∀ a, f a = g a) : x >>= f = x >>= g := by
  cases x <;> simp [jsBind_ok, jsBind_error, h]

lemma jsBind_ite {α β : Type} (c : Prop) [Decidable c] (x y : Except JsError α)
    (k : α → Except JsError β) :
    ((if c then x else y) >>= k) = if c then x >>= k else y >>= k := by
  split_ifs <;> rfl

/-- The role-existence guard compares `undefined` (the `.length` of the
un-awaited Promise) with `0` under `==`, which is `false`. -/
lemma roleCheckCond : jsLooseEq pendingPromiseLength (.num 0) = false := rfl

lemma funcFindByField_email (db : Database) (v : SqlValue) :
    FuncionarioDAO.findByField db "email" v =
      .ok (⟨"email", v⟩, db.funcionarios.filter (fun r => r.getField "email" == some v)) := rfl

lemma cargoFindByField_nome (db : Database) (v : SqlValue) :
    CargoDAO.findByField db "nomeCargo" v =
      .ok (⟨"nomeCargo", v⟩, db.cargos.filter (fun r => r.getField "nomeCargo" == some v)) := rfl

lemma funcCreate_eval (db : Database) (idf : Option Int) (cid : Int) (nc : Option String)
    (nome em sen : String) (rvt : Int) :
    FuncionarioDAO.create db
      { idFuncionario := idf, cargo := some { idCargo := some cid, nomeCargo := nc },
        nomeFuncionario := some nome, email := some em, senha := some sen,
        recebeValeTransporte := some rvt } =
      (if db.cargos.any (fun cr => cr.idCargo == cid) then
        .ok ({ db with
               funcionarios := db.funcionarios ++ [⟨db.nextFuncionarioId, nome, em, bcryptHash sen, rvt, cid⟩],
               nextFuncionarioId := db.nextFuncionarioId + 1 }, db.nextFuncionarioId)
      else .error (.plainError fkViolationMsg)) := rfl

lemma cargoCreate_eval (db : Database) (idc : Option Int) (nome : String) :
    CargoDAO.create db { idCargo := idc, nomeCargo := some nome } =
      .ok ({ db with
             cargos := db.cargos ++ [⟨db.nextCargoId, nome⟩],
             nextCargoId := db.nextCargoId + 1 }, db.nextCargoId) := rfl

/-- `CargoService.createCargo` written out: domain validation, duplicate-name
lookup, conflict error or insert. -/
lemma createCargo_unfold (db : Database) (v : JsValue) :
    CargoService.createCargo db v =
      (validateNomeCargo v >>= fun nome =>
        if (db.cargos.filter (fun r => r.getField "nomeCargo" == some (.str nome))).length > 0 then
          .error (.errorResponse 400 "Cargo já existe" ("O cargo " ++ nome ++ " já existe"))
        else
          .ok ({ db with
                 cargos := db.cargos ++ [⟨db.nextCargoId, nome⟩],
                 nextCargoId := db.nextCargoId + 1 }, db.nextCargoId)) := by
  unfold CargoService.createCargo
  simp only [Cargo.setNomeCargo, jsMapBind, cargoFindByField_nome, jsBind_ok, cargoCreate_eval]

/-- `FuncionarioService.createFuncionario` written out.  Note what is absent:
because the role-existence lookup is not awaited, its guard is `undefined == 0`
(statically `false`) and no service-level role check appears in the normal
form — after domain validation the code goes straight to the email-uniqueness
check and then the INSERT, whose only role guard is the store's
`fk_Funcionario_Cargo` constraint. -/
lemma createFuncionario_unfold (db : Database) (p : FuncionarioJson) :
    FuncionarioService.createFuncionario db p =
      (validateIdCargo p.cargoIdCargo >>= fun cid =>
       validateNomeFuncionario p.nomeFuncionario >>= fun nome =>
       validateEmail p.email >>= fun em =>
       validateSenha p.senha >>= fun sen =>
       validateRecebeValeTransporte p.recebeValeTransporte >>= fun rvt =>
       if (db.funcionarios.filter (fun r => r.getField "email" == some (.str em))).length > 0 then
         .error (.errorResponse 400 "´Já existe um Funcionário com o email fornecido"
           ("O email " ++ em ++ " já está cadastrado"))
       else if db.cargos.any (fun cr => cr.idCargo == cid) then
         validateIdFuncionario (.num (db.nextFuncionarioId : Rat)) >>= fun fid =>
         .ok ({ db with
                 funcionarios := db.funcionarios ++ [⟨db.nextFuncionarioId, nome, em, bcryptHash sen, rvt, cid⟩],
                 nextFuncionarioId := db.nextFuncionarioId + 1 },
              { idFuncionario := some fid,
                cargo := some { idCargo := some cid, nomeCargo := none },
                nomeFuncionario := some nome, email := some em, senha := some sen,
                recebeValeTransporte := some rvt })
       else .error (.plainError fkViolationMsg)) := by
  unfold FuncionarioService.createFuncionario
  simp only [Cargo.setIdCargo, Funcionario.setNomeFuncionario, Funcionario.setEmail,
    Funcionario.setSenha, Funcionario.setRecebeValeTransporte, Funcionario.setCargo,
    Funcionario.setIdFuncionario, jsMapBind, jsBind_ok, roleCheckCond, Bool.false_eq_true,
    if_false, funcFindByField_email, funcCreate_eval, jsBind_ite, jsBind_error]

/-- `FuncionarioService.loginFuncionario` written out over the join rows. -/
lemma loginFuncionario_unfold (db : Database) (ev sv : JsValue) (now : Nat) :
    FuncionarioService.loginFuncionario db ev sv now =
      (validateEmail ev >>= fun em =>
       validateSenha sv >>= fun sen =>
       match db.funcionarioJoinCargo.filter (fun pr => pr.1.email = em) with
       | [(fr, cr)] =>
         if !bcryptCompare sen fr.senha then
           .error (.errorResponse 401 "Usuário ou senha inválidos" "Não foi possível realizar autenticação")
         else
           .ok { user := { email := some fr.email, role := some cr.nomeCargo,
                           name := some fr.nomeFuncionario, idFuncionario := some fr.idFuncionario },
                 token := MeuTokenJWT.gerarToken
                   { email := some fr.email, role := some cr.nomeCargo,
                     name := some fr.nomeFuncionario, idFuncionario := some fr.idFuncionario } now }
       | _ => .error (.errorResponse 401 "Usuário ou senha inválidos" "Não foi possível realizar autenticação")) := by
  unfold FuncionarioService.loginFuncionario FuncionarioDAO.login
  simp only [Funcionario.setEmail, Funcionario.setSenha, jsMapBind]
  refine jsBind_congr _ _ _ fun em => ?_
  refine jsBind_congr _ _ _ fun sen => ?_
  rcases hr : db.funcionarioJoinCargo.filter (fun pr => pr.1.email = em) with - | ⟨⟨fr, cr⟩, rest⟩
  · rw [hr]; rfl
  · cases rest
    · rw [hr]
      cases hc : bcryptCompare sen fr.senha <;> simp [hc, jsBind_ok]
    · rw [hr]; rfl

/-- `FuncionarioService.updateFuncionario` written out: every setter runs
unconditionally, then the DAO update. -/
lemma updateFuncionario_unfold (db : Database) (idv : JsValue) (p : FuncionarioJson) :
    FuncionarioService.updateFuncionario db idv p =
      (validateIdCargo p.cargoIdCargo >>= fun cid =>
       validateIdFuncionario idv >>= fun fid =>
       validateNomeFuncionario p.nomeFuncionario >>= fun nome =>
       validateEmail p.email >>= fun em =>
       validateSenha p.senha >>= fun sen =>
       validateRecebeValeTransporte p.recebeValeTransporte >>= fun rvt =>
       FuncionarioDAO.update db
         { idFuncionario := some fid, cargo := some { idCargo := some cid, nomeCargo := none },
           nomeFuncionario := some nome, email := some em, senha := some sen,
           recebeValeTransporte := some rvt }) := by
  unfold FuncionarioService.updateFuncionario
  simp only [Cargo.setIdCargo, Funcionario.setIdFuncionario, Funcionario.setNomeFuncionario,
    Funcionario.setEmail, Funcionario.setSenha, Funcionario.setRecebeValeTransporte,
    Funcionario.setCargo, jsMapBind, jsBind_ok]

lemma validateSenha_ok_ne (v : JsValue) (s : String) (h : validateSenha v = .ok s) : s ≠ "" := by
  unfold validateSenha at h
  cases v
  case str =>
    simp only [] at h
    split_ifs at h
    all_goals simp_all
  all_goals simp at h

/-- A bcrypt digest is never the plaintext (it is 7 characters longer). -/
lemma bcryptHash_ne (s : String) : bcryptHash s ≠ s := by
  intro h
  have hl := congrArg String.length h
  rw [bcryptHash] at hl
  simp only [String.length_append] at hl
  have h7 : "$2b$12$".length = 7 := rfl
  omega

/-- Recognizes the (dead) "role does not exist" error of
`createFuncionario`. -/
def isRoleMissingError {α : Type} : Except JsError α → Bool
  | .error (.errorResponse _ m _) => m == "O cargo informado não existe"
  | _ => false

lemma isRoleMissing_plain {α : Type} (e : JsError) (he : e.isPlain = true) :
    isRoleMissingError (α := α) (.error e) = false := by
  cases e <;> simp_all [JsError.isPlain, isRoleMissingError]

/-! ## Sample data for concrete runs -/

/-- A store holding one Role (id 1) and no Employees. -/
def dbAdm : Database :=
  { cargos := [⟨1, "Administrador"⟩], funcionarios := [], nextCargoId := 2, nextFuncionarioId := 1 }

/-- A well-formed Employee-creation payload referencing the nonexistent
role id 999. -/
def payloadRole999 : FuncionarioJson :=
  { nomeFuncionario := .str "John Smith", email := .str "john@x.com", senha := .str "Pass@123",
    recebeValeTransporte := .num 1, cargoIdCargo := .num 999 }

/-- A well-formed Employee object as built by the service layer. -/
def funcJohn : Funcionario :=
  { idFuncionario := none, cargo := some { idCargo := some 1, nomeCargo := none },
    nomeFuncionario := some "John Smith", email := some "john@x.com", senha := some "Pass@123",
    recebeValeTransporte := some 1 }

/-- The row `FuncionarioDAO.create` writes for `funcJohn`. -/
def rowJohnHashed : FuncionarioRow := ⟨1, "John Smith", "john@x.com", bcryptHash "Pass@123", 1, 1⟩

/-- `dbAdm` after creating `funcJohn`. -/
def dbJohnCreated : Database :=
  { cargos := [⟨1, "Administrador"⟩], funcionarios := [rowJohnHashed],
    nextCargoId := 2, nextFuncionarioId := 2 }

/-- A stored Employee whose password digest is that of `"Other@1"`. -/
def rowJohnOther : FuncionarioRow := ⟨1, "John Smith", "john@x.com", bcryptHash "Other@1", 1, 1⟩

/-- A store holding one Role and the Employee `rowJohnOther`. -/
def dbJohn : Database :=
  { cargos := [⟨1, "Administrador"⟩], funcionarios := [rowJohnOther],
    nextCargoId := 2, nextFuncionarioId := 2 }

/-- `dbAdm` after creating the Role "Developer". -/
def dbAfterDeveloper : Database :=
  { cargos := [⟨1, "Administrador"⟩, ⟨2, "Developer"⟩], funcionarios := [],
    nextCargoId := 3, nextFuncionarioId := 1 }

/-- An update payload omitting `nomeFuncionario` (the field is `undefined`). -/
def payloadNoName : FuncionarioJson :=
  { nomeFuncionario := .undefined, email := .str "john@x.com", senha := .str "Pass@123",
    recebeValeTransporte := .num 1, cargoIdCargo := .num 1 }

/-! ## Claim theorems -/

/-- C1: the claim says a creation payload referencing a nonexistent Role id
fails with the 400 "role does not exist" error, raised before the
email-uniqueness check and before any persistence call.  The code
contradicts this: the role lookup is not awaited (`FuncionarioService.js`
line 67 lacks `await`), so its guard `cargoExiste.length == 0` compares
`undefined` with `0` and the 400 branch is dead on every run (third block).
What the program does instead at role id 999 against a store without that
Role: with a fresh email the request reaches the INSERT, which the store's
`fk_Funcionario_Cargo` constraint rejects — no row is written and the
client sees a plain foreign-key error that the responder maps to 500, not
the claimed 400 (first block); with an already-registered email the 400
email-conflict error is raised even though the Role does not exist, so no
role-existence failure precedes the email check (second block). -/
theorem createFuncionario_role_check_dead :
    (dbAdm.cargos.filter (fun r => r.idCargo == 999) = [] ∧
     FuncionarioService.createFuncionario dbAdm payloadRole999 =
       .error (.plainError fkViolationMsg) ∧
     Server.errorHandlerStatus (.plainError fkViolationMsg) = 500) ∧
    (dbJohn.cargos.filter (fun r => r.idCargo == 999) = [] ∧
     FuncionarioService.createFuncionario dbJohn payloadRole999 =
       .error (.errorResponse 400 "´Já existe um Funcionário com o email fornecido"
         ("O email " ++ "john@x.com" ++ " já está cadastrado"))) ∧
    (∀ db p, isRoleMissingError (FuncionarioService.createFuncionario db p) = false) := by
  refine ⟨⟨rfl, rfl, rfl⟩, ⟨rfl, rfl⟩, ?_⟩
  intro db p
  rw [createFuncionario_unfold]
  cases h1 : validateIdCargo p.cargoIdCargo with
  | error e =>
    simp only [jsBind_error]
    exact isRoleMissing_plain e (errIsPlain_error _ _ (validateIdCargo_errIsPlain _) h1)
  | ok cid =>
  simp only [jsBind_ok]
  cases h2 : validateNomeFuncionario p.nomeFuncionario with
  | error e =>
    simp only [jsBind_error]
    exact isRoleMissing_plain e (errIsPlain_error _ _ (validateNomeFuncionario_errIsPlain _) h2)
  | ok nome =>
  simp only [jsBind_ok]
  cases h3 : validateEmail p.email with
  | error e =>
    simp only [jsBind_error]
    exact isRoleMissing_plain e (errIsPlain_error _ _ (validateEmail_errIsPlain _) h3)
  | ok em =>
  simp only [jsBind_ok]
  cases h4 : validateSenha p.senha with
  | error e =>
    simp only [jsBind_error]
    exact isRoleMissing_plain e (errIsPlain_error _ _ (validateSenha_errIsPlain _) h4)
  | ok sen =>
  simp only [jsBind_ok]
  cases h5 : validateRecebeValeTransporte p.recebeValeTransporte with
  | error e =>
    simp only [jsBind_error]
    exact isRoleMissing_plain e (errIsPlain_error _ _ (validateRecebeValeTransporte_errIsPlain _) h5)
  | ok rvt =>
  simp only [jsBind_ok]
  by_cases hlen :
      (db.funcionarios.filter (fun r => r.getField "email" == some (.str em))).length > 0
  · rw [if_pos hlen]; rfl
  · rw [if_neg hlen]
    by_cases hfk : db.cargos.any (fun cr => cr.idCargo == cid) = true
    · rw [if_pos hfk]
      cases h6 : validateIdFuncionario (.num (db.nextFuncionarioId : Rat)) with
      | error e =>
        simp only [jsBind_error]
        exact isRoleMissing_plain e (errIsPlain_error _ _ (validateIdFuncionario_errIsPlain _) h6)
      | ok fid => simp only [jsBind_ok]; rfl
    · rw [if_neg hfk]; rfl

/-- C2: a protected request whose Authorization header is absent, malformed,
or expired fails token validation, and whenever validation fails the JWT
middleware answers 401, does not call `next()`, and leaves the header
untouched — so no downstream handler runs without a valid token. -/
theorem jwtMiddleware_rejects_invalid_token :
    (∀ now, MeuTokenJWT.validarToken .absent now = none) ∧
    (∀ raw now, MeuTokenJWT.validarToken (.malformedHeader raw) now = none) ∧
    (∀ c sec e now, e ≤ now → MeuTokenJWT.validarToken (.bearer (.signed c sec e)) now = none) ∧
    (∀ auth now, MeuTokenJWT.validarToken auth now = none →
      JwtMiddleware.validateToken auth now =
        { responseStatus := some 401, calledNext := false, authorizationAfter := auth }) := by
  refine ⟨fun now => rfl, fun raw now => rfl, ?_, ?_⟩
  · intro c sec e now he
    simp [MeuTokenJWT.validarToken]
    omega
  · intro auth now h
    simp [JwtMiddleware.validateToken, h]

/-- Witness for C2: the middleware at a concrete request with no
Authorization header answers 401 and does not call `next()`. -/
theorem jwtMiddleware_rejects_invalid_token_witness :
    MeuTokenJWT.validarToken .absent 0 = none ∧
    JwtMiddleware.validateToken .absent 0 =
      { responseStatus := some 401, calledNext := false, authorizationAfter := .absent } :=
  ⟨rfl, jwtMiddleware_rejects_invalid_token.2.2.2 .absent 0 rfl⟩

/-- C3: whenever token validation succeeds, the middleware writes a freshly
generated token — built from the decoded claims' email, role and name, signed
with the server secret and expiring `tokenTtlSeconds` after now — into the
request's authorization header, answers nothing, and calls `next()`; each
authenticated request thus extends the session window. -/
theorem jwtMiddleware_reissues_token_on_success (auth : AuthHeader) (now : Nat) (payload : Claims)
    (h : MeuTokenJWT.validarToken auth now = some payload) :
    JwtMiddleware.validateToken auth now =
      { responseStatus := none, calledNext := true,
        authorizationAfter := .bearer (.signed
          { email := payload.email, role := payload.role, name := payload.name }
          serverSecret (now + tokenTtlSeconds)) } := by
  simp [JwtMiddleware.validateToken, h, MeuTokenJWT.gerarToken]

/-- A concrete claim set for the C3 witness. -/
def sampleClaims : Claims := { email := some "a@b.c" }

/-- Witness for C3: a concrete valid token is re-issued with a new expiry and
placed in the header, and `next()` is called. -/
theorem jwtMiddleware_reissues_token_on_success_witness :
    MeuTokenJWT.validarToken (.bearer (.signed sampleClaims serverSecret 10)) 5 = some sampleClaims ∧
    JwtMiddleware.validateToken (.bearer (.signed sampleClaims serverSecret 10)) 5 =
      { responseStatus := none, calledNext := true,
        authorizationAfter := .bearer (.signed
          { email := sampleClaims.email, role := sampleClaims.role, name := sampleClaims.name }
          serverSecret (5 + tokenTtlSeconds)) } :=
  ⟨rfl, jwtMiddleware_reissues_token_on_success
    (.bearer (.signed sampleClaims serverSecret 10)) 5 sampleClaims rfl⟩

/-- Counterexample to C4: the value-object setters throw plain `Error`
objects, not `ErrorResponse`, and the top-level responder maps anything that
is not an `ErrorResponse` to status 500.  At the concrete invalid assignment
`senha = "123"` the raised error is a plain `Error` and the responder answers
500, not a 400-class status. -/
theorem setter_error_mapped_to_500_counterexample :
    Funcionario.setSenha {} (.str "123") =
      .error (.plainError "senha deve ter pelo menos 6 caracteres.") ∧
    Server.errorHandlerStatus (.plainError "senha deve ter pelo menos 6 caracteres.") = 500 ∧
    ¬ Server.errorHandlerStatus (.plainError "senha deve ter pelo menos 6 caracteres.") < 500 :=
  ⟨rfl, rfl, by decide⟩

/-- C4 (amended): every error a value-object setter raises is a plain
`Error` (raised synchronously on the first violated invariant), and the
top-level responder maps plain errors to 500 (internal error) while mapping
`ErrorResponse` instances to their own HTTP code; setter-raised
domain-invariant violations therefore surface as 500, not as a 400-class
status. -/
theorem setters_raise_plain_error_mapped_to_500 :
    (∀ c v e, Cargo.setIdCargo c v = .error e → e.isPlain = true) ∧
    (∀ c v e, Cargo.setNomeCargo c v = .error e → e.isPlain = true) ∧
    (∀ f v e, Funcionario.setIdFuncionario f v = .error e → e.isPlain = true) ∧
    (∀ f v e, Funcionario.setNomeFuncionario f v = .error e → e.isPlain = true) ∧
    (∀ f v e, Funcionario.setEmail f v = .error e → e.isPlain = true) ∧
    (∀ f v e, Funcionario.setSenha f v = .error e → e.isPlain = true) ∧
    (∀ f v e, Funcionario.setRecebeValeTransporte f v = .error e → e.isPlain = true) ∧
    (∀ m, Server.errorHandlerStatus (.plainError m) = 500) ∧
    (∀ code m d, Server.errorHandlerStatus (.errorResponse code m d) = code) := by
  refine ⟨?_, ?_, ?_, ?_, ?_, ?_, ?_, fun m => rfl, fun code m d => rfl⟩
  · exact fun c v e h => errIsPlain_error _ e (errIsPlain_map _ _ (validateIdCargo_errIsPlain v)) h
  · exact fun c v e h => errIsPlain_error _ e (errIsPlain_map _ _ (validateNomeCargo_errIsPlain v)) h
  · exact fun f v e h =>
      errIsPlain_error _ e (errIsPlain_map _ _ (validateIdFuncionario_errIsPlain v)) h
  · exact fun f v e h =>
      errIsPlain_error _ e (errIsPlain_map _ _ (validateNomeFuncionario_errIsPlain v)) h
  · exact fun f v e h => errIsPlain_error _ e (errIsPlain_map _ _ (validateEmail_errIsPlain v)) h
  · exact fun f v e h => errIsPlain_error _ e (errIsPlain_map _ _ (validateSenha_errIsPlain v)) h
  · exact fun f v e h =>
      errIsPlain_error _ e (errIsPlain_map _ _ (validateRecebeValeTransporte_errIsPlain v)) h

/-- Witness for C4 (amended): the error of the concrete failing assignment
`senha = "123"` is a plain `Error`. -/
theorem setters_raise_plain_error_mapped_to_500_witness :
    (JsError.plainError "senha deve ter pelo menos 6 caracteres.").isPlain = true :=
  setters_raise_plain_error_mapped_to_500.2.2.2.2.2.1 {} (.str "123") _ rfl

/-- C5: re-submitting a creation payload that just succeeded yields the
conflict `ErrorResponse` the second time — for Roles because the new row's
name matches the duplicate-name lookup, for Employees because the new row's
email matches the email-uniqueness lookup.  In the embedding an error result
carries no database, so no second row is inserted on the conflicting run. -/
theorem duplicate_creation_yields_conflict :
    (∀ db v db2 id, CargoService.createCargo db v = .ok (db2, id) →
       ∃ d, CargoService.createCargo db2 v = .error (.errorResponse 400 "Cargo já existe" d)) ∧
    (∀ db p db2 f, FuncionarioService.createFuncionario db p = .ok (db2, f) →
       ∃ d, FuncionarioService.createFuncionario db2 p =
         .error (.errorResponse 400 "´Já existe um Funcionário com o email fornecido" d)) := by
  constructor
  · intro db v db2 id h
    rw [createCargo_unfold] at h
    cases h1 : validateNomeCargo v with
    | error e => rw [h1, jsBind_error] at h; exact absurd h (by simp)
    | ok nome =>
    rw [h1] at h; simp only [jsBind_ok] at h
    by_cases hlen : (db.cargos.filter (fun r => r.getField "nomeCargo" == some (.str nome))).length > 0
    · rw [if_pos hlen] at h; exact absurd h (by simp)
    · rw [if_neg hlen] at h
      simp only [Except.ok.injEq, Prod.mk.injEq] at h
      obtain ⟨hdb, -⟩ := h
      subst hdb
      have hlen2 : (Database.cargos { db with
            cargos := db.cargos ++ [⟨db.nextCargoId, nome⟩],
            nextCargoId := db.nextCargoId + 1 } |>.filter
            (fun r => r.getField "nomeCargo" == some (.str nome))).length > 0 := by
        simp [List.filter_append, List.filter_cons, CargoRow.getField]
      refine ⟨"O cargo " ++ nome ++ " já existe", ?_⟩
      rw [createCargo_unfold, h1]
      simp only [jsBind_ok]
      rw [if_pos hlen2]
  · intro db p db2 f h
    rw [createFuncionario_unfold] at h
    cases h1 : validateIdCargo p.cargoIdCargo with
    | error e => rw [h1, jsBind_error] at h; exact absurd h (by simp)
    | ok cid =>
    rw [h1] at h; simp only [jsBind_ok] at h
    cases h2 : validateNomeFuncionario p.nomeFuncionario with
    | error e => rw [h2, jsBind_error] at h; exact absurd h (by simp)
    | ok nome =>
    rw [h2] at h; simp only [jsBind_ok] at h
    cases h3 : validateEmail p.email with
    | error e => rw [h3, jsBind_error] at h; exact absurd h (by simp)
    | ok em =>
    rw [h3] at h; simp only [jsBind_ok] at h
    cases h4 : validateSenha p.senha with
    | error e => rw [h4, jsBind_error] at h; exact absurd h (by simp)
    | ok sen =>
    rw [h4] at h; simp only [jsBind_ok] at h
    cases h5 : validateRecebeValeTransporte p.recebeValeTransporte with
    | error e => rw [h5, jsBind_error] at h; exact absurd h (by simp)
    | ok rvt =>
    rw [h5] at h; simp only [jsBind_ok] at h
    by_cases hlen :
        (db.funcionarios.filter (fun r => r.getField "email" == some (.str em))).length > 0
    · rw [if_pos hlen] at h; exact absurd h (by simp)
    · rw [if_neg hlen] at h
      by_cases hfk : db.cargos.any (fun cr => cr.idCargo == cid) = true
      case neg => rw [if_neg hfk] at h; exact absurd h (by simp)
      rw [if_pos hfk] at h
      cases h6 : validateIdFuncionario (.num (db.nextFuncionarioId : Rat)) with
      | error e => rw [h6, jsBind_error] at h; exact absurd h (by simp)
      | ok fid =>
      rw [h6] at h; simp only [jsBind_ok] at h
      simp only [Except.ok.injEq, Prod.mk.injEq] at h
      obtain ⟨hdb, -⟩ := h
      subst hdb
      have hlen2 : (Database.funcionarios { db with
            funcionarios := db.funcionarios ++ [⟨db.nextFuncionarioId, nome, em, bcryptHash sen, rvt, cid⟩],
            nextFuncionarioId := db.nextFuncionarioId + 1 } |>.filter
            (fun r => r.getField "email" == some (.str em))).length > 0 := by
        simp [List.filter_append, List.filter_cons, FuncionarioRow.getField]
      refine ⟨"O email " ++ em ++ " já está cadastrado", ?_⟩
      rw [createFuncionario_unfold, h1]
      simp only [jsBind_ok]
      rw [h2]; simp only [jsBind_ok]
      rw [h3]; simp only [jsBind_ok]
      rw [h4]; simp only [jsBind_ok]
      rw [h5]; simp only [jsBind_ok]
      rw [if_pos hlen2]

/-- Witness for C5: creating the Role "Developer" succeeds against `dbAdm`
and re-submitting the same payload yields the conflict error. -/
theorem duplicate_creation_yields_conflict_witness :
    CargoService.createCargo dbAdm (.str "Developer") = .ok (dbAfterDeveloper, 2) ∧
    ∃ d, CargoService.createCargo dbAfterDeveloper (.str "Developer") =
      .error (.errorResponse 400 "Cargo já existe" d) :=
  ⟨rfl, duplicate_creation_yields_conflict.1 dbAdm (.str "Developer") dbAfterDeveloper 2 rfl⟩

/-- C6: the password setter accepts a candidate string exactly when its
trimmed value has length at least 6 and contains at least one uppercase
letter, one digit, and one character of the special-character set (the
nonempty check is subsumed by the length bound). -/
theorem senha_policy_characterization (f : Funcionario) (s : String) :
    (∃ g, Funcionario.setSenha f (.str s) = .ok g) ↔
      (6 ≤ (jsTrim s).length ∧
       ((jsTrim s).toList.any fun c => 'A' ≤ c && c ≤ 'Z') = true ∧
       ((jsTrim s).toList.any fun c => '0' ≤ c && c ≤ '9') = true ∧
       ((jsTrim s).toList.any fun c => specialChars.contains c) = true) := by
  unfold Funcionario.setSenha validateSenha
  dsimp only
  split_ifs with h1 h2 h3 h4 h5 <;> simp_all [Except.map]

/-- C7: for a well-formed email and policy-conforming password, a login
against a store with no joined row for that email and a login against a
store whose single joined row fails the bcrypt comparison produce the
identical 401 error value — the two failure causes are indistinguishable. -/
theorem login_failure_uniform_error (db : Database) (ev sv : JsValue) (now : Nat)
    (em sen : String)
    (he : validateEmail ev = .ok em) (hs : validateSenha sv = .ok sen) :
    (db.funcionarioJoinCargo.filter (fun pr => pr.1.email = em) = [] →
       FuncionarioService.loginFuncionario db ev sv now =
         .error (.errorResponse 401 "Usuário ou senha inválidos" "Não foi possível realizar autenticação")) ∧
    (∀ fr cr, db.funcionarioJoinCargo.filter (fun pr => pr.1.email = em) = [(fr, cr)] →
       bcryptCompare sen fr.senha = false →
       FuncionarioService.loginFuncionario db ev sv now =
         .error (.errorResponse 401 "Usuário ou senha inválidos" "Não foi possível realizar autenticação")) := by
  constructor
  · intro hf
    rw [loginFuncionario_unfold, he]
    simp only [jsBind_ok]
    rw [hs]
    simp only [jsBind_ok]
    rw [hf]
  · intro fr cr hf hc
    rw [loginFuncionario_unfold, he]
    simp only [jsBind_ok]
    rw [hs]
    simp only [jsBind_ok]
    rw [hf]
    simp [hc]

/-- Witness for C7: a concrete login with the wrong password against a store
holding that email produces the same 401 error the empty store produces. -/
theorem login_failure_uniform_error_witness :
    validateEmail (.str "john@x.com") = .ok "john@x.com" ∧
    validateSenha (.str "Pass@123") = .ok "Pass@123" ∧
    dbJohn.funcionarioJoinCargo.filter (fun pr => pr.1.email = "john@x.com") =
      [(rowJohnOther, ⟨1, "Administrador"⟩)] ∧
    bcryptCompare "Pass@123" rowJohnOther.senha = false ∧
    FuncionarioService.loginFuncionario dbJohn (.str "john@x.com") (.str "Pass@123") 0 =
      .error (.errorResponse 401 "Usuário ou senha inválidos" "Não foi possível realizar autenticação") :=
  ⟨rfl, rfl, rfl, rfl,
    (login_failure_uniform_error dbJohn (.str "john@x.com") (.str "Pass@123") 0
        "john@x.com" "Pass@123" rfl rfl).2
      rowJohnOther ⟨1, "Administrador"⟩ rfl rfl⟩

/-- C8: every row `FuncionarioDAO.create` adds carries the bcrypt hash of
the supplied plaintext (never the plaintext itself), and `FuncionarioDAO.update`
writes the hash to every row it changes when a password is supplied, while a
falsy password leaves every row's stored password equal to one already in
the store — no persistence path writes an unhashed password. -/
theorem dao_persists_only_password_hashes :
    (∀ db f db2 id, FuncionarioDAO.create db f = .ok (db2, id) →
       ∀ r ∈ db2.funcionarios, r ∈ db.funcionarios ∨
         ∃ s, f.senha = some s ∧ r.senha = bcryptHash s ∧ r.senha ≠ s) ∧
    (∀ db f db2 b, FuncionarioDAO.update db f = .ok (db2, b) →
       (∀ s, f.senha = some s → s ≠ "" →
          ∀ r ∈ db2.funcionarios, r ∈ db.funcionarios ∨ (r.senha = bcryptHash s ∧ r.senha ≠ s)) ∧
       (jsTruthyStr f.senha = false →
          ∀ r ∈ db2.funcionarios, ∃ r0 ∈ db.funcionarios, r.senha = r0.senha)) := by
  constructor
  · intro db f db2 id h r hr
    obtain ⟨idf, cargoOpt, nomef, emailf, senhaf, rvtf⟩ := f
    rcases nomef with - | nome
    · simp [FuncionarioDAO.create, Option.bind] at h
    rcases emailf with - | em
    · simp [FuncionarioDAO.create, Option.bind] at h
    rcases senhaf with - | sen
    · simp [FuncionarioDAO.create, Option.bind] at h
    rcases rvtf with - | rvt
    · simp [FuncionarioDAO.create, Option.bind] at h
    rcases cargoOpt with - | ⟨cidOpt, nc⟩
    · simp [FuncionarioDAO.create, Option.bind] at h
    rcases cidOpt with - | cid
    · simp [FuncionarioDAO.create, Option.bind] at h
    rw [funcCreate_eval] at h
    by_cases hfk : db.cargos.any (fun cr => cr.idCargo == cid) = true
    case neg => rw [if_neg hfk] at h; exact absurd h (by simp)
    rw [if_pos hfk] at h
    simp only [Except.ok.injEq, Prod.mk.injEq] at h
    obtain ⟨hdb, -⟩ := h
    subst hdb
    simp only [List.mem_append, List.mem_singleton] at hr
    rcases hr with hr | hr
    · exact Or.inl hr
    · subst hr
      exact Or.inr ⟨sen, rfl, rfl, bcryptHash_ne sen⟩
  · intro db f db2 b h
    obtain ⟨idf, cargoOpt, nomef, emailf, senhaf, rvtf⟩ := f
    unfold FuncionarioDAO.update at h
    rcases idf with - | fid
    · simp at h
    rcases nomef with - | nome
    · simp at h
    rcases emailf with - | em
    · simp at h
    rcases rvtf with - | rvt
    · simp at h
    rcases cargoOpt with - | ⟨cidOpt, nc⟩
    · simp at h
    rcases cidOpt with - | cid
    · simp at h
    simp only [Option.bind, Except.ok.injEq, Prod.mk.injEq] at h
    obtain ⟨hdb, -⟩ := h
    subst hdb
    constructor
    · rintro s hs hne r hr
      simp only [] at hs
      subst hs
      simp only [List.mem_map] at hr
      obtain ⟨r0, hr0, heq⟩ := hr
      by_cases hid : r0.idFuncionario = fid
      · subst heq
        rw [if_pos hid, if_pos hne]
        exact Or.inr ⟨rfl, bcryptHash_ne s⟩
      · subst heq
        rw [if_neg hid]
        exact Or.inl hr0
    · intro hfalsy r hr
      simp only [List.mem_map] at hr
      obtain ⟨r0, hr0, heq⟩ := hr
      refine ⟨r0, hr0, ?_⟩
      subst heq
      rcases hsen : senhaf with - | s
      · subst hsen
        by_cases hid : r0.idFuncionario = fid
        · rw [if_pos hid]
        · rw [if_neg hid]
      · subst hsen
        simp [jsTruthyStr] at hfalsy
        subst hfalsy
        by_cases hid : r0.idFuncionario = fid
        · rw [if_pos hid]; simp
        · rw [if_neg hid]

/-- Witness for C8: creating `funcJohn` stores the digest of `"Pass@123"`,
and the inserted row satisfies the hashed-password disjunction. -/
theorem dao_persists_only_password_hashes_witness :
    FuncionarioDAO.create dbAdm funcJohn = .ok (dbJohnCreated, 1) ∧
    (rowJohnHashed ∈ dbAdm.funcionarios ∨
      ∃ s, funcJohn.senha = some s ∧ rowJohnHashed.senha = bcryptHash s ∧ rowJohnHashed.senha ≠ s) :=
  ⟨rfl, dao_persists_only_password_hashes.1 dbAdm funcJohn dbJohnCreated 1 rfl rowJohnHashed
    (List.mem_singleton.mpr rfl)⟩

/-- Counterexample to C9: the claim says an update payload may omit any
subset of the mutable fields and omitted fields are left unchanged.  At the
concrete payload omitting `nomeFuncionario`, against a store that holds the
target row, `updateFuncionario` throws the setter's validation error instead
of leaving the name unchanged. -/
theorem update_omitted_field_fails_counterexample :
    FuncionarioService.updateFuncionario dbJohn (.str "1") payloadNoName =
      .error (.plainError "nomeFuncionario deve ser uma string.") := rfl

/-- C9 (amended): Employee update requires every mutable field: a payload
omitting any of name, email, password, commute flag or role id makes
`updateFuncionario` fail with a synchronous validation error (no partial
update), and on every successful update the supplied password passed
validation and every changed row stores its bcrypt hash. -/
theorem update_requires_all_fields_and_rehashes :
    (∀ db idv p,
       (p.nomeFuncionario = .undefined ∨ p.email = .undefined ∨ p.senha = .undefined ∨
        p.recebeValeTransporte = .undefined ∨ p.cargoIdCargo = .undefined) →
       ∃ m, FuncionarioService.updateFuncionario db idv p = .error (.plainError m)) ∧
    (∀ db idv p db2 b, FuncionarioService.updateFuncionario db idv p = .ok (db2, b) →
       ∃ sen, validateSenha p.senha = .ok sen ∧ sen ≠ "" ∧
         ∀ r ∈ db2.funcionarios, r ∈ db.funcionarios ∨ r.senha = bcryptHash sen) := by
  constructor
  · intro db idv p hdisj
    rw [updateFuncionario_unfold]
    cases h1 : validateIdCargo p.cargoIdCargo with
    | error e =>
      obtain ⟨m, rfl⟩ := plain_exists e (errIsPlain_error _ _ (validateIdCargo_errIsPlain _) h1)
      exact ⟨m, by simp [jsBind_error]⟩
    | ok cid =>
    simp only [jsBind_ok]
    cases h2 : validateIdFuncionario idv with
    | error e =>
      obtain ⟨m, rfl⟩ := plain_exists e (errIsPlain_error _ _ (validateIdFuncionario_errIsPlain _) h2)
      exact ⟨m, by simp [jsBind_error]⟩
    | ok fid =>
    simp only [jsBind_ok]
    cases h3 : validateNomeFuncionario p.nomeFuncionario with
    | error e =>
      obtain ⟨m, rfl⟩ :=
        plain_exists e (errIsPlain_error _ _ (validateNomeFuncionario_errIsPlain _) h3)
      exact ⟨m, by simp [jsBind_error]⟩
    | ok nome =>
    simp only [jsBind_ok]
    cases h4 : validateEmail p.email with
    | error e =>
      obtain ⟨m, rfl⟩ := plain_exists e (errIsPlain_error _ _ (validateEmail_errIsPlain _) h4)
      exact ⟨m, by simp [jsBind_error]⟩
    | ok em =>
    simp only [jsBind_ok]
    cases h5 : validateSenha p.senha with
    | error e =>
      obtain ⟨m, rfl⟩ := plain_exists e (errIsPlain_error _ _ (validateSenha_errIsPlain _) h5)
      exact ⟨m, by simp [jsBind_error]⟩
    | ok sen =>
    simp only [jsBind_ok]
    cases h6 : validateRecebeValeTransporte p.recebeValeTransporte with
    | error e =>
      obtain ⟨m, rfl⟩ :=
        plain_exists e (errIsPlain_error _ _ (validateRecebeValeTransporte_errIsPlain _) h6)
      exact ⟨m, by simp [jsBind_error]⟩
    | ok rvt =>
    exfalso
    rcases hdisj with hd | hd | hd | hd | hd
    · rw [hd] at h3; exact absurd h3 (by simp [validateNomeFuncionario])
    · rw [hd] at h4; exact absurd h4 (by simp [validateEmail])
    · rw [hd] at h5; exact absurd h5 (by simp [validateSenha])
    · rw [hd] at h6; exact absurd h6 (by simp [validateRecebeValeTransporte])
    · rw [hd] at h1; exact absurd h1 (by simp [validateIdCargo, jsToNumber])
  · intro db idv p db2 b h
    rw [updateFuncionario_unfold] at h
    cases h1 : validateIdCargo p.cargoIdCargo with
    | error e => rw [h1, jsBind_error] at h; exact absurd h (by simp)
    | ok cid =>
    rw [h1] at h; simp only [jsBind_ok] at h
    cases h2 : validateIdFuncionario idv with
    | error e => rw [h2, jsBind_error] at h; exact absurd h (by simp)
    | ok fid =>
    rw [h2] at h; simp only [jsBind_ok] at h
    cases h3 : validateNomeFuncionario p.nomeFuncionario with
    | error e => rw [h3, jsBind_error] at h; exact absurd h (by simp)
    | ok nome =>
    rw [h3] at h; simp only [jsBind_ok] at h
    cases h4 : validateEmail p.email with
    | error e => rw [h4, jsBind_error] at h; exact absurd h (by simp)
    | ok em =>
    rw [h4] at h; simp only [jsBind_ok] at h
    cases h5 : validateSenha p.senha with
    | error e => rw [h5, jsBind_error] at h; exact absurd h (by simp)
    | ok sen =>
    rw [h5] at h; simp only [jsBind_ok] at h
    cases h6 : validateRecebeValeTransporte p.recebeValeTransporte with
    | error e => rw [h6, jsBind_error] at h; exact absurd h (by simp)
    | ok rvt =>
    rw [h6] at h; simp only [jsBind_ok] at h
    have hne := validateSenha_ok_ne _ _ h5
    refine ⟨sen, rfl, hne, ?_⟩
    unfold FuncionarioDAO.update at h
    simp only [Option.bind, Except.ok.injEq, Prod.mk.injEq] at h
    obtain ⟨hdb, -⟩ := h
    subst hdb
    intro r hr
    simp only [List.mem_map] at hr
    obtain ⟨r0, hr0, heq⟩ := hr
    subst heq
    by_cases hid : r0.idFuncionario = fid
    · rw [if_pos hid, if_pos hne]
      exact Or.inr rfl
    · rw [if_neg hid]
      exact Or.inl hr0

/-- Witness for C9 (amended): the concrete payload omitting
`nomeFuncionario` makes the update fail with a plain validation error. -/
theorem update_requires_all_fields_and_rehashes_witness :
    (payloadNoName.nomeFuncionario = .undefined ∨ payloadNoName.email = .undefined ∨
     payloadNoName.senha = .undefined ∨ payloadNoName.recebeValeTransporte = .undefined ∨
     payloadNoName.cargoIdCargo = .undefined) ∧
    ∃ m, FuncionarioService.updateFuncionario dbJohn (.str "1") payloadNoName =
      .error (.plainError m) :=
  ⟨Or.inl rfl,
    update_requires_all_fields_and_rehashes.1 dbJohn (.str "1") payloadNoName (Or.inl rfl)⟩

/-- C10: `findByField` on either DAO rejects any field name outside its
fixed allow-list with an error raised before any query is built, and every
query it does execute interpolates exactly the (whitelisted) field name into
the SQL text while the searched value travels only as the bound parameter. -/
theorem findByField_allowlist :
    (∀ db field value, field ∉ cargoAllowedFields →
        CargoDAO.findByField db field value =
          .error (.plainError ("Campo inválido para busca: " ++ field))) ∧
    (∀ db field value q rows, CargoDAO.findByField db field value = .ok (q, rows) →
        field ∈ cargoAllowedFields ∧ q.interpolatedField = field ∧ q.param = value) ∧
    (∀ db field value, field ∉ funcionarioAllowedFields →
        FuncionarioDAO.findByField db field value =
          .error (.plainError "Campo inválido para busca")) ∧
    (∀ db field value q rows, FuncionarioDAO.findByField db field value = .ok (q, rows) →
        field ∈ funcionarioAllowedFields ∧ q.interpolatedField = field ∧ q.param = value) := by
  refine ⟨?_, ?_, ?_, ?_⟩
  · intro db field value h
    simp [CargoDAO.findByField, h]
  · intro db field value q rows h
    unfold CargoDAO.findByField at h
    split_ifs at h with hf
    simp only [Except.ok.injEq, Prod.mk.injEq] at h
    obtain ⟨hq, -⟩ := h
    subst hq
    exact ⟨by simpa using hf, rfl, rfl⟩
  · intro db field value h
    simp [FuncionarioDAO.findByField, h]
  · intro db field value q rows h
    unfold FuncionarioDAO.findByField at h
    split_ifs at h with hf
    simp only [Except.ok.injEq, Prod.mk.injEq] at h
    obtain ⟨hq, -⟩ := h
    subst hq
    exact ⟨by simpa using hf, rfl, rfl⟩

/-- Witness for C10: an injection-shaped field name is rejected outright,
and a whitelisted lookup's query interpolates only the field name and binds
the value. -/
theorem findByField_allowlist_witness :
    CargoDAO.findByField { cargos := [], funcionarios := [] } "nomeCargo; DROP TABLE cargo" (.str "x") =
      .error (.plainError ("Campo inválido para busca: " ++ "nomeCargo; DROP TABLE cargo")) ∧
    ("idCargo" ∈ cargoAllowedFields ∧
      (SqlQuery.mk "idCargo" (.int 1)).interpolatedField = "idCargo" ∧
      (SqlQuery.mk "idCargo" (.int 1)).param = .int 1) :=
  ⟨findByField_allowlist.1 _ _ _ (by decide),
   findByField_allowlist.2.1 { cargos := [], funcionarios := [] } "idCargo" (.int 1) _ [] rfl⟩

end HR
